import Mathlib

/-!
Verification development for the Pdftoaudio repository.

The repository is a PyQt/VLC desktop application (src/media_player.py,
src/GUI.py, src/PdfToAudio.py).  This file gives a shallow embedding of the
hand-written logic the specification talks about: the `MediaPlayer`
controller's transport operations and polling tick, the time formatting,
the speed cycling, `Widget.check_path` validation and the save operation.
External libraries (pathlib, VLC, Qt, shutil) are modelled as an
environment of uninterpreted observation functions.
-/

namespace Pdftoaudio

/-- Python `int(x)` on a real value truncates toward zero; modelled on `ℚ`. -/
def pyInt (q : ℚ) : ℤ := if 0 ≤ q then ⌊q⌋ else ⌈q⌉

/-- Python `str(n)` for an integer `n`. -/
def pyStr (n : ℤ) : String :=
  if n < 0 then "-" ++ Nat.repr n.natAbs else Nat.repr n.toNat

/-- Python's zero-padded width-2 format `f"{n:02}"`: a single extra `0` is
prepended when the rendered integer is shorter than two characters. -/
def pad2 (n : ℤ) : String :=
  let s := pyStr n
  if s.length < 2 then "0" ++ s else s

/-- Embedding of `MediaPlayer.format_time` (media_player.py:163): `divmod(seconds, 60)`
followed by `f"{mins:02}:{secs:02}"`.  Python's `divmod` on integers is
floor division with the matching modulus, i.e. `Int.fdiv` and `Int.fmod`. -/
def format_time (seconds : ℤ) : String :=
  pad2 (seconds.fdiv 60) ++ ":" ++ pad2 (seconds.fmod 60)

/-- Numeric value of a decimal digit character. -/
def digitVal (c : Char) : ℕ := c.toNat - '0'.toNat

/-- Modelled from the spec: `parseTime` does not appear in the repository
source; §8 of the spec posits it as the inverse of `formatTime` on
zero-padded `MM:SS` strings whose minute field has fewer than three digits.
It reads two minute digits, a colon, and two second digits. -/
def parse_time (t : String) : ℕ :=
  match t.data with
  | [m1, m0, c, s1, s0] =>
      if c = ':' then
        (digitVal m1 * 10 + digitVal m0) * 60 + (digitVal s1 * 10 + digitVal s0)
      else 0
  | _ => 0

/-- Embedding of `MediaPlayer.seek` (media_player.py:93): both branches hand
`seconds * 1000` to `player.set_time`; this is the millisecond target sent
to the decoder (the transient play/sleep/pause around it does not change
the value). -/
def seek_target (seconds : ℤ) : ℤ := seconds * 1000

/-- Embedding of `MediaPlayer.skip_forward` (media_player.py:75): the millisecond target
is `current_time + seconds * 1000`, with no clamping. -/
def skip_forward_target (current_time seconds : ℤ) : ℤ :=
  current_time + seconds * 1000

/-- Embedding of `MediaPlayer.skip_backwards` (media_player.py:84): the millisecond
target is `max(0, current_time - seconds * 1000)`. -/
def skip_backwards_target (current_time seconds : ℤ) : ℤ :=
  max 0 (current_time - seconds * 1000)

/-- Embedding of `MediaPlayer.track_speed_list` (media_player.py:20). -/
def track_speed_list : List ℚ := [1/2, 1, 3/2, 2]

/-- The scan performed by `MediaPlayer.switch_speed` (media_player.py:115):
find the first list entry equal to the current speed; answer the following
entry, or the literal `0.5` when the match is the last entry; answer
nothing when the current speed is not in the list (the loop then falls
through without assigning). -/
def switchSpeedScan : List ℚ → ℚ → Option ℚ
  | [], _ => none
  | [x], cur => if x = cur then some (1/2) else none
  | x :: y :: rest, cur => if x = cur then some y else switchSpeedScan (y :: rest) cur

/-- Embedding of `MediaPlayer.switch_speed` (media_player.py:115) as the new value of
`self.track_speed`: the scan result, or the unchanged speed when the scan
finds no match. -/
def switch_speed (cur : ℚ) : ℚ := (switchSpeedScan track_speed_list cur).getD cur

/-- The external collaborators, consumed as black boxes: `pathlib.Path`
observations (`exists()`, `is_file()`, `.suffix`) and the decoder's
reported duration in milliseconds (`vlc.Media.get_duration()`). -/
structure Env where
  path_exists : String → Bool
  path_is_file : String → Bool
  path_suffix : String → String
  media_duration_ms : String → ℤ

/-- Suffix lists used by `Widget.check_path` (GUI.py:279). -/
def image_suffixes : List String := [".jpg", ".png", ".jpeg"]

def pdf_suffixes : List String := [".pdf"]

def audio_suffixes : List String := [".ogg", ".wav", ".mp3", ".raw"]

/-- Embedding of `Widget.check_path` (GUI.py:279): when the path exists and is a file,
return it if its suffix matches the requested type's suffix list; for
`'folder'` return any existing path; otherwise print a message and return
a falsy value.  Both the `return False` branch and falling off the end of
the function (a `None` return) are falsy and modelled as `none`. -/
def check_path (env : Env) (path ty : String) : Option String :=
  if env.path_exists path && env.path_is_file path then
    if ty = "image" && decide (env.path_suffix path ∈ image_suffixes) then some path
    else if ty = "pdf" && decide (env.path_suffix path ∈ pdf_suffixes) then some path
    else if ty = "audio" && decide (env.path_suffix path ∈ audio_suffixes) then some path
    else none
  else if ty = "folder" && env.path_exists path then some path
  else none

/-- The `MediaPlayer` state the claims are about: the loaded media
(`self.track`), the stored track name (`self.track_name`), the title
label's text (`self.track_title`), the stored current and total times in
seconds, the progress-bar value (`self.track_bar`), the two time labels,
whether the polling timer is running (`self.track_timer`), and the
playback speed (`self.track_speed`). -/
structure MPState where
  track : Option String
  track_name : Option String
  title_text : String
  track_current_time : ℤ
  track_total_time : ℤ
  bar_value : ℤ
  current_time_label : String
  total_time_label : String
  timer_active : Bool
  track_speed : ℚ
deriving DecidableEq

/-- The state after `MediaPlayer.__init__` (media_player.py:12) and
`load_ui` (media_player.py:129): no track, speed `1`, both labels
`"00:00"`, title `"[ NOT LOADED ]"`, timer not running. -/
def initState : MPState :=
  { track := none
    track_name := none
    title_text := "[ NOT LOADED ]"
    track_current_time := 0
    track_total_time := 0
    bar_value := 0
    current_time_label := "00:00"
    total_time_label := "00:00"
    timer_active := false
    track_speed := 1 }

/-- Python exceptions that `load_audio` can raise. -/
inductive PyError where
  | typeError
  | unboundLocal
deriving DecidableEq

/-- Outcome of `load_audio`: the `MediaPlayer` state after the call
together with the exception raised, if any (mutations made before the
raise are kept, as in Python). -/
structure LoadResult where
  state : MPState
  error : Option PyError
deriving DecidableEq

/-- Embedding of `MediaPlayer.load_audio` (media_player.py:31).

The `file_path` branch runs `GUI.Widget.check_path(file_path, 'audio')`:
`check_path` (GUI.py:279) is a plain instance method with parameters
`(self, path, type)`, so this call binds `self = file_path` and
`path = 'audio'` and leaves `type` missing — Python raises `TypeError`
before any attribute of `self` is changed.  (Compare PdfToAudio.py:71,
which passes `GUI.Widget` explicitly as `self`.)

With a direct `file` argument, `audio_path = file` with no validation;
`self.track_name = file_name` (default `'DEFAULT'`), the media is loaded,
the title label is set, and the total time becomes
`track.get_duration() // 1000` with its label formatted.

With neither argument the local `audio_path` is never assigned:
`self.track_name` is still updated, and then `if audio_path:` raises
`UnboundLocalError`. -/
def load_audio (env : Env) (st : MPState) (file_path file : Option String)
    (file_name : String) : LoadResult :=
  match file_path with
  | some _ => { state := st, error := some PyError.typeError }
  | none =>
    match file with
    | some f =>
        let total := (env.media_duration_ms f).fdiv 1000
        { state :=
            { st with
              track_name := some file_name
              track := some f
              title_text := file_name
              track_total_time := total
              total_time_label := format_time total }
          error := none }
    | none =>
        { state := { st with track_name := some file_name }
          error := some PyError.unboundLocal }

/-- Embedding of `MediaPlayer.play` (media_player.py:53): starts the polling timer and
the decoder. -/
def play (st : MPState) : MPState := { st with timer_active := true }

/-- Embedding of `MediaPlayer.pause` (media_player.py:60): pauses the decoder and stops
the timer when it is active (a no-op otherwise). -/
def pause (st : MPState) : MPState := { st with timer_active := false }

/-- Embedding of `MediaPlayer.reset_player` (media_player.py:173): zero the stored
time, the bar, refresh the current-time label, stop the timer. -/
def reset_player (st : MPState) : MPState :=
  { st with
    track_current_time := 0
    bar_value := 0
    current_time_label := format_time 0
    timer_active := false }

/-- Embedding of `MediaPlayer.stop` (media_player.py:68): stop the decoder, then
`reset_player`. -/
def stop (st : MPState) : MPState := reset_player st

/-- Embedding of `MediaPlayer.update_player` (media_player.py:182), the polling tick.
`freshMs` is the decoder's `player.get_time()` reading in milliseconds.
The branch condition compares the *stored* `self.track_current_time`
against `self.track_total_time - 1`; only inside the update branch is the
fresh reading stored (`// 1000`), the bar set to
`int(current/total * 100)` and the label refreshed. -/
def update_player (st : MPState) (freshMs : ℤ) : MPState :=
  if st.track_current_time ≤ st.track_total_time - 1 then
    let c := freshMs.fdiv 1000
    { st with
      track_current_time := c
      bar_value := pyInt ((c : ℚ) / (st.track_total_time : ℚ) * 100)
      current_time_label := format_time c }
  else
    stop st

/-- Outcome of `PdfToAudio.save_audio`: the copy performed, if any, as the
pair `(self.speech, file_name)` handed to `shutil.copy`, and the
user-visible warnings issued (the source body contains no warning or
message call on any path, so this list is always empty). -/
structure SaveResult where
  copy : Option (Option String × String)
  warnings : List String
deriving DecidableEq

/-- Embedding of `PdfToAudio.save_audio` (PdfToAudio.py:75): after the save dialog,
copy the speech artifact to the chosen destination only when
`self.media_player.track is not None`; otherwise do nothing. -/
def save_audio (track : Option String) (speech : Option String)
    (dest : String) : SaveResult :=
  if track.isSome then { copy := some (speech, dest), warnings := [] }
  else { copy := none, warnings := [] }

/-! ## Helper lemmas -/

/-- For a two-digit (or padded one-digit) value, `pad2` renders exactly the
tens digit followed by the units digit. -/
lemma pad2_data : ∀ m : ℕ, m < 100 →
    (pad2 (m : ℤ)).data = [Nat.digitChar (m / 10), Nat.digitChar (m % 10)] := by
  decide

lemma digitVal_digitChar : ∀ d : ℕ, d < 10 → digitVal (Nat.digitChar d) = d := by
  decide

lemma colon_data : (":" : String).data = [':'] := rfl

/-- Python `int` truncation agrees with the floor on nonnegative values. -/
lemma pyInt_of_nonneg {q : ℚ} (h : 0 ≤ q) : pyInt q = ⌊q⌋ := if_pos h

/-- The bar-value expression `int(c / T * 100)` is exact integer floor
division `(100 * c) // T` when `0 ≤ c` and `0 < T`. -/
lemma pyInt_ratio_eq_fdiv {c T : ℤ} (hc : 0 ≤ c) (hT : 0 < T) :
    pyInt ((c : ℚ) / (T : ℚ) * 100) = (100 * c).fdiv T := by
  have hq : (0 : ℚ) ≤ (c : ℚ) / (T : ℚ) * 100 := by positivity
  have hTQ : ((T.toNat : ℕ) : ℚ) = (T : ℚ) := by
    exact_mod_cast congrArg (fun z : ℤ => (z : ℚ)) (Int.toNat_of_nonneg hT.le)
  have hrw : (c : ℚ) / (T : ℚ) * 100 = ((100 * c : ℤ) : ℚ) / ((T.toNat : ℕ) : ℚ) := by
    rw [hTQ]; push_cast; ring
  rw [pyInt_of_nonneg hq, hrw, Rat.floor_intCast_div_natCast,
      Int.toNat_of_nonneg hT.le, Int.fdiv_eq_ediv _ hT.le]

/-! ## Claims -/

/-- C4: `format_time` renders integer seconds as a zero-padded `MM:SS`
string with no hour component (4503 seconds renders as `"75:03"`), and
`parse_time` inverts it for every nonnegative integer whose minute count
is below 100. -/
theorem format_time_round_trip :
    format_time 4503 = "75:03" ∧
    ∀ s : ℕ, s / 60 < 100 → parse_time (format_time (s : ℤ)) = s := by
  refine ⟨by decide, ?_⟩
  intro s h
  have h60 : (0 : ℤ) ≤ 60 := by norm_num
  have hfd : (s : ℤ).fdiv 60 = ((s / 60 : ℕ) : ℤ) := by
    rw [Int.fdiv_eq_ediv _ h60]; exact (Int.ofNat_ediv s 60).symm
  have hfm : (s : ℤ).fmod 60 = ((s % 60 : ℕ) : ℤ) := by
    rw [Int.fmod_eq_emod _ h60]; exact (Int.ofNat_emod s 60).symm
  have hr : s % 60 < 100 := lt_of_lt_of_le (Nat.mod_lt s (by norm_num)) (by norm_num)
  have hdata : (format_time (s : ℤ)).data =
      [Nat.digitChar (s / 60 / 10), Nat.digitChar (s / 60 % 10), ':',
       Nat.digitChar (s % 60 / 10), Nat.digitChar (s % 60 % 10)] := by
    rw [format_time, hfd, hfm, String.data_append, String.data_append,
        colon_data, pad2_data _ h, pad2_data _ hr]
    rfl
  have hp : parse_time (format_time (s : ℤ)) =
      (digitVal (Nat.digitChar (s / 60 / 10)) * 10 +
         digitVal (Nat.digitChar (s / 60 % 10))) * 60 +
      (digitVal (Nat.digitChar (s % 60 / 10)) * 10 +
         digitVal (Nat.digitChar (s % 60 % 10))) := by
    unfold parse_time
    rw [hdata]
    simp
  rw [hp, digitVal_digitChar _ (by omega), digitVal_digitChar _ (by omega),
      digitVal_digitChar _ (by omega), digitVal_digitChar _ (by omega)]
  omega

/-- C4 witness: the round trip at 4503 seconds. -/
theorem format_time_round_trip_witness :
    (4503 : ℕ) / 60 < 100 ∧ parse_time (format_time ((4503 : ℕ) : ℤ)) = 4503 :=
  ⟨by decide, format_time_round_trip.2 4503 (by decide)⟩

/-- C5: `switch_speed` cycles through `0.5, 1, 1.5, 2` in order, wrapping
from the last back to the first, so four applications are the identity on
every speed in the list. -/
theorem switch_speed_cycles :
    switch_speed (1/2) = 1 ∧ switch_speed 1 = 3/2 ∧
    switch_speed (3/2) = 2 ∧ switch_speed 2 = 1/2 ∧
    ∀ v ∈ track_speed_list,
      switch_speed (switch_speed (switch_speed (switch_speed v))) = v := by
  refine ⟨?_, ?_, ?_, ?_, ?_⟩
  · norm_num [switch_speed, switchSpeedScan, track_speed_list]
  · norm_num [switch_speed, switchSpeedScan, track_speed_list]
  · norm_num [switch_speed, switchSpeedScan, track_speed_list]
  · norm_num [switch_speed, switchSpeedScan, track_speed_list]
  · intro v hv
    fin_cases hv <;> norm_num [switch_speed, switchSpeedScan, track_speed_list]

/-- C5 witness: four applications starting from speed 1. -/
theorem switch_speed_cycles_witness :
    switch_speed (switch_speed (switch_speed (switch_speed 1))) = 1 :=
  switch_speed_cycles.2.2.2.2 1 (by norm_num [track_speed_list])

/-- C9: the playback speed starts at 1, a member of the fixed list, and
`switch_speed` maps list members to list members and leaves any value
outside the list unchanged, so the speed always stays in the list. -/
theorem track_speed_stays_in_list :
    initState.track_speed = 1 ∧ (1 : ℚ) ∈ track_speed_list ∧
    (∀ v ∈ track_speed_list, switch_speed v ∈ track_speed_list) ∧
    (∀ v : ℚ, v ∉ track_speed_list → switch_speed v = v) := by
  refine ⟨rfl, by norm_num [track_speed_list], ?_, ?_⟩
  · intro v hv
    fin_cases hv <;> norm_num [switch_speed, switchSpeedScan, track_speed_list]
  · intro v hv
    simp only [track_speed_list, List.mem_cons, List.not_mem_nil, or_false,
      not_or] at hv
    obtain ⟨h1, h2, h3, h4⟩ := hv
    have e1 : ¬((1 : ℚ)/2 = v) := fun h => h1 h.symm
    have e2 : ¬((1 : ℚ) = v) := fun h => h2 h.symm
    have e3 : ¬((3 : ℚ)/2 = v) := fun h => h3 h.symm
    have e4 : ¬((2 : ℚ) = v) := fun h => h4 h.symm
    simp only [switch_speed, track_speed_list, switchSpeedScan,
      if_neg e1, if_neg e2, if_neg e3, if_neg e4, Option.getD_none]

/-- C9 witness: the invariant applied to the initial speed. -/
theorem track_speed_stays_in_list_witness :
    initState.track_speed = 1 ∧ switch_speed 1 ∈ track_speed_list :=
  ⟨track_speed_stays_in_list.1,
   track_speed_stays_in_list.2.2.1 1 track_speed_stays_in_list.2.1⟩

/-- A state with a loaded ten-second track, used by concrete instances. -/
def loadedState : MPState :=
  { initState with
    track := some "speech.mp3"
    track_name := some "Track1"
    title_text := "Track1"
    track_total_time := 10
    total_time_label := "00:10" }

/-- C1 counterexample: with a loaded track of total duration 10 seconds,
`seek(11)` targets 11000 ms and `skip_forward(2)` from 9000 ms targets
11000 ms — both strictly beyond the track end, so neither operation clamps
its target to `[0, totalDuration]`. -/
theorem seek_targets_exceed_duration :
    loadedState.track_total_time = 10 ∧
    loadedState.track_total_time * 1000 < seek_target 11 ∧
    loadedState.track_total_time * 1000 < skip_forward_target 9000 2 := by
  refine ⟨rfl, by decide, by decide⟩

/-- C1 amended: only `skip_backwards` clamps, and only from below (its
target is never negative); `seek` and `skip_forward` pass their targets
through unclamped, so whenever the requested second count exceeds the
total duration the target lands strictly beyond the track end. -/
theorem seek_skip_target_arithmetic (c s T : ℤ) :
    0 ≤ skip_backwards_target c s ∧
    seek_target s = 1000 * s ∧
    skip_forward_target c s = c + 1000 * s ∧
    (T < s → 1000 * T < seek_target s) ∧
    (1000 * T < c + 1000 * s → 1000 * T < skip_forward_target c s) := by
  refine ⟨le_max_left _ _, by rw [seek_target]; ring,
    by rw [skip_forward_target]; ring, ?_, ?_⟩
  · intro h
    rw [seek_target]
    omega
  · intro h
    rw [skip_forward_target]
    omega

/-- C1 amended witness: the arithmetic at `c = 9000`, `s = 11`, `T = 10`. -/
theorem seek_skip_target_arithmetic_witness :
    0 ≤ skip_backwards_target 9000 11 ∧ 1000 * 10 < seek_target 11 ∧
    1000 * 10 < skip_forward_target 9000 11 :=
  ⟨(seek_skip_target_arithmetic 9000 11 10).1,
   (seek_skip_target_arithmetic 9000 11 10).2.2.2.1 (by decide),
   (seek_skip_target_arithmetic 9000 11 10).2.2.2.2 (by decide)⟩

/-- C10: calling `load_audio` with neither a path nor a file leaves the
local `audio_path` unassigned, so after `self.track_name` is overwritten
the `if audio_path:` test raises `UnboundLocalError`; no validation runs
and no other field changes. -/
theorem load_audio_no_source_unbound (env : Env) (st : MPState) (name : String) :
    load_audio env st none none name =
      { state := { st with track_name := some name }
        error := some PyError.unboundLocal } := rfl

/-- C6: every call of `load_audio` that passes a `file_path` — whether the
path is invalid or valid — raises `TypeError` immediately, because
`GUI.Widget.check_path(file_path, 'audio')` calls the three-parameter
instance method with only two positional arguments; the exception precedes
every state mutation, so the whole previous state is kept, but the
intended `check_path` validation (and its failure report) is unreachable
from this branch. -/
theorem load_audio_path_type_error (env : Env) (st : MPState)
    (p : String) (f : Option String) (name : String) :
    load_audio env st (some p) f name =
      { state := st, error := some PyError.typeError } := rfl

/-- An environment in which `"speech.mp3"` is an existing readable audio
file whose decoder duration is 60000 ms. -/
def envAudio : Env :=
  { path_exists := fun p => p = "speech.mp3"
    path_is_file := fun p => p = "speech.mp3"
    path_suffix := fun p => if p = "speech.mp3" then ".mp3" else ""
    media_duration_ms := fun p => if p = "speech.mp3" then 60000 else 0 }

/-- A mid-playback state: five seconds into the loaded ten-second track. -/
def midPlaybackState : MPState :=
  { loadedState with
    track_current_time := 5
    current_time_label := "00:05"
    bar_value := 50 }

/-- C7 counterexample: loading a valid 60-second audio file over a state
whose stored position is 5 succeeds (no error, total duration 60 > 0) but
keeps the stored playback position at 5 — `load_audio` contains no reset
of `track_current_time`, so a successful load does not reset the current
position to 0. -/
theorem load_audio_keeps_position :
    (load_audio envAudio midPlaybackState none (some "speech.mp3") "Track1").error
        = none ∧
    0 < (load_audio envAudio midPlaybackState none
          (some "speech.mp3") "Track1").state.track_total_time ∧
    (load_audio envAudio midPlaybackState none
          (some "speech.mp3") "Track1").state.track_current_time = 5 := by
  refine ⟨rfl, by decide, rfl⟩

/-- C7 amended: a successful load — which only the direct `file` argument
can produce, the path branch raising `TypeError` — replaces the loaded
track, updates the stored name, the title and the total-duration label,
and sets the total duration to the decoder duration floor-divided by 1000
(positive exactly when the decoder reports at least 1000 ms); the stored
current position and its label are left as they were, not reset to 0. -/
theorem load_audio_file_success (env : Env) (st : MPState) (f name : String) :
    (load_audio env st none (some f) name).error = none ∧
    (load_audio env st none (some f) name).state.track = some f ∧
    (load_audio env st none (some f) name).state.track_name = some name ∧
    (load_audio env st none (some f) name).state.title_text = name ∧
    (load_audio env st none (some f) name).state.track_total_time
        = (env.media_duration_ms f).fdiv 1000 ∧
    (load_audio env st none (some f) name).state.total_time_label
        = format_time ((env.media_duration_ms f).fdiv 1000) ∧
    (load_audio env st none (some f) name).state.track_current_time
        = st.track_current_time ∧
    (load_audio env st none (some f) name).state.current_time_label
        = st.current_time_label ∧
    (1000 ≤ env.media_duration_ms f →
      0 < (load_audio env st none (some f) name).state.track_total_time) := by
  refine ⟨rfl, rfl, rfl, rfl, rfl, rfl, rfl, rfl, ?_⟩
  intro h
  show 0 < (env.media_duration_ms f).fdiv 1000
  rw [Int.fdiv_eq_ediv _ (by norm_num)]
  omega

/-- C7 amended witness: loading the 60-second file into the initial state. -/
theorem load_audio_file_success_witness :
    (load_audio envAudio initState none (some "speech.mp3") "Track1").state.track
        = some "speech.mp3" ∧
    0 < (load_audio envAudio initState none
          (some "speech.mp3") "Track1").state.track_total_time :=
  ⟨(load_audio_file_success envAudio initState "speech.mp3" "Track1").2.1,
   (load_audio_file_success envAudio initState "speech.mp3" "Track1").2.2.2.2.2.2.2.2
     (by decide)⟩

/-- C8 counterexample: with no loaded track, `save_audio` performs no copy
and also issues no user-visible warning at all — the claimed warning does
not exist in the code. -/
theorem save_audio_silent_when_unloaded :
    (save_audio none none "out.mp3").copy = none ∧
    (save_audio none none "out.mp3").warnings = [] :=
  ⟨rfl, rfl⟩

/-- C8 amended: `save_audio` copies the loaded speech artifact to the
chosen destination exactly when a track is loaded; with no track it is a
silent no-op — no copy, and no warning on any path. -/
theorem save_audio_copies_iff_loaded (speech : Option String) (dest : String) :
    (∀ t : String,
      (save_audio (some t) speech dest).copy = some (speech, dest) ∧
      (save_audio (some t) speech dest).warnings = []) ∧
    (save_audio none speech dest).copy = none ∧
    (save_audio none speech dest).warnings = [] :=
  ⟨fun _ => ⟨rfl, rfl⟩, rfl, rfl⟩

/-- A playing state at the start of the loaded ten-second track. -/
def playingState : MPState := { loadedState with timer_active := true }

/-- C2 counterexample: on a tick of the playing ten-second track whose
stored position is 0, a fresh decoder reading of 10000 ms (position 10,
which is `≥ totalDuration - 1 = 9`) does **not** invoke `stop()`: the
stored position becomes 10 and the timer stays active, because the branch
tests the stale stored position (0), not the fresh reading. -/
theorem update_player_ignores_fresh_position :
    (10000 : ℤ).fdiv 1000 ≥ playingState.track_total_time - 1 ∧
    (update_player playingState 10000).track_current_time = 10 ∧
    (update_player playingState 10000).timer_active = true := by
  refine ⟨by decide, by decide, by decide⟩

/-- C2 amended: the polling tick decides between updating and stopping on
the *stored* position from the previous tick, regardless of the fresh
decoder reading: while the stored position is at most `totalDuration - 1`
it stores the fresh reading (floor-divided by 1000), refreshes the label
and keeps the timer as it was; only when the stored position already
exceeds `totalDuration - 1` does it call `stop()`. -/
theorem update_player_decides_on_stored (st : MPState) (freshMs : ℤ) :
    (st.track_current_time ≤ st.track_total_time - 1 →
      (update_player st freshMs).track_current_time = freshMs.fdiv 1000 ∧
      (update_player st freshMs).current_time_label
          = format_time (freshMs.fdiv 1000) ∧
      (update_player st freshMs).bar_value
          = pyInt ((freshMs.fdiv 1000 : ℤ) / (st.track_total_time : ℚ) * 100) ∧
      (update_player st freshMs).timer_active = st.timer_active) ∧
    (st.track_total_time - 1 < st.track_current_time →
      update_player st freshMs = stop st) := by
  constructor
  · intro h
    unfold update_player
    rw [if_pos h]
    exact ⟨rfl, rfl, rfl, rfl⟩
  · intro h
    unfold update_player
    rw [if_neg (not_le.mpr h)]

/-- C2 amended witness: a mid-track tick with a fresh reading of 3000 ms. -/
theorem update_player_decides_on_stored_witness :
    (update_player playingState 3000).track_current_time = (3000 : ℤ).fdiv 1000 ∧
    (update_player playingState 3000).timer_active = playingState.timer_active :=
  ⟨((update_player_decides_on_stored playingState 3000).1 (by decide)).1,
   ((update_player_decides_on_stored playingState 3000).1 (by decide)).2.2.2⟩

/-- A freshly loaded three-second track (progress updates still pending). -/
def threeSecondState : MPState :=
  { initState with track := some "speech.mp3", track_total_time := 3 }

/-- C3 counterexample: at position 2 of a 3-second track the tick sets the
bar to `int(2/3*100) = 66`, while the claimed value `round(2/3*100)` is 67
(and remains 67 after clamping to `[0, 100]`): the code truncates, it does
not round. -/
theorem bar_value_is_not_rounded :
    (update_player threeSecondState (1000 * 2)).bar_value = 66 ∧
    round ((2 : ℚ) / (threeSecondState.track_total_time : ℚ) * 100) = 67 := by
  constructor
  · have hg : threeSecondState.track_current_time
        ≤ threeSecondState.track_total_time - 1 := by decide
    have hb : (update_player threeSecondState (1000 * 2)).bar_value
        = pyInt (((1000 * 2 : ℤ).fdiv 1000 : ℤ) /
            (threeSecondState.track_total_time : ℚ) * 100) := by
      unfold update_player
      rw [if_pos hg]
    rw [hb, show ((1000 * 2 : ℤ).fdiv 1000) = 2 from by decide,
      show threeSecondState.track_total_time = 3 from rfl]
    norm_num [pyInt]
  · rw [show threeSecondState.track_total_time = 3 from rfl]
    norm_num [round_eq]

/-- C3 amended: whenever the tick's update branch runs with a fresh
position `c` satisfying `0 ≤ c ≤ totalDuration` and a positive total
duration, the bar value it stores is the floor (truncation) of
`c / totalDuration * 100`, i.e. the integer floor division
`(100 * c) // totalDuration`, and that value automatically lies in
`[0, 100]` with no explicit clamping. -/
theorem bar_value_is_truncated_ratio (st : MPState) (c : ℤ)
    (hguard : st.track_current_time ≤ st.track_total_time - 1)
    (hT : 0 < st.track_total_time) (hc0 : 0 ≤ c)
    (hcT : c ≤ st.track_total_time) :
    (update_player st (1000 * c)).bar_value = (100 * c).fdiv st.track_total_time ∧
    0 ≤ (update_player st (1000 * c)).bar_value ∧
    (update_player st (1000 * c)).bar_value ≤ 100 := by
  have hmc : (1000 * c).fdiv 1000 = c := Int.mul_fdiv_cancel_left _ (by norm_num)
  have hb : (update_player st (1000 * c)).bar_value
      = pyInt ((c : ℤ) / (st.track_total_time : ℚ) * 100) := by
    unfold update_player
    rw [if_pos hguard]
    show pyInt _ = _
    rw [hmc]
  rw [hb, pyInt_ratio_eq_fdiv hc0 hT]
  refine ⟨rfl, Int.fdiv_nonneg (by omega) hT.le, ?_⟩
  rw [Int.fdiv_eq_ediv _ hT.le]
  calc (100 * c) / st.track_total_time
      ≤ (st.track_total_time * 100) / st.track_total_time :=
        Int.ediv_le_ediv hT (by omega)
    _ = 100 := Int.mul_ediv_cancel_left _ hT.ne'

/-- C3 amended witness: position 2 of the 3-second track gives bar value
`(100 * 2) // 3 = 66`, inside `[0, 100]`. -/
theorem bar_value_is_truncated_ratio_witness :
    (update_player threeSecondState (1000 * 2)).bar_value
        = (100 * 2 : ℤ).fdiv threeSecondState.track_total_time ∧
    0 ≤ (update_player threeSecondState (1000 * 2)).bar_value ∧
    (update_player threeSecondState (1000 * 2)).bar_value ≤ 100 :=
  bar_value_is_truncated_ratio threeSecondState 2 (by decide) (by decide)
    (by decide) (by decide)

end Pdftoaudio
